import Mathlib

/-
  Verification of the marine central-cooling controller
  (CoolingSystemController in new_AI_UI_0314.py, with the
  new_AI_UI_0313_1.py lineage where it differs).

  Embedding conventions:
  * Python floats are modelled as rationals (ℚ); float literals are
    mapped to the exact rationals they denote in the source text
    (0.05 = 1/20, 0.75 = 3/4, ...).
  * The mutable controller object is modelled as a `State` record;
    each method becomes a function `State → State` (or returns the
    method's result alongside the state).
  * np.random.randn() draws are modelled as an explicit stream of
    rationals (`rng`) carried in the state; simulate_temperature_changes
    consumes two draws per call.
  * Wall-clock quantities (time.time(), operating-hours accumulation,
    sleep pacing) are not modelled; no claim refers to them.
    `operating_hours` is kept as a static field because
    simulate_temperature_changes reads it.
  * The lazily created attributes of adjust_sw_pump_frequency
    (sw_base_freq, prev_t5, t5_direction, last_adjustment) are modelled
    by explicit fields plus the `sw_init` flag standing for
    hasattr(self, 'sw_base_freq'); while `sw_init` is false the values
    of prev_t5 / t5_direction / last_adjustment are never read.
  * alarm_message is modelled as `Option AlarmMsg`: the Python empty
    string is `none`, and each formatted message text is identified by
    the condition that produced it.
-/

namespace ESSAI

/-- Direction tag used by the sea-water hysteresis controller
('up' / 'down'; Python's None is `Option.none`). -/
inductive Dir : Type where
  | up : Dir
  | down : Dir
deriving DecidableEq, Repr

/-- Identity of an alarm message text set by check_alarm_conditions. -/
inductive AlarmMsg : Type where
  | t5High : AlarmMsg
  | t2High : AlarmMsg
  | dp1Low : AlarmMsg
  | dp1High : AlarmMsg
deriving DecidableEq, Repr

/-- One history entry: the fields appended in lockstep to the
time_data / t1_data / ... / engine_load_data arrays of update_system
(the wall-clock timestamp is omitted). -/
structure Snapshot : Type where
  t1 : ℚ
  t2 : ℚ
  t4 : ℚ
  t5 : ℚ
  dp1 : ℚ
  fwFreq : ℚ
  swFreq : ℚ
  fwCount : ℕ
  swCount : ℕ
  efficiency : ℚ
  engineLoad : ℚ
deriving DecidableEq, Repr

/-- State of one CoolingSystemController instance. -/
structure State : Type where
  T1 : ℚ
  T2 : ℚ
  T4 : ℚ
  T5 : ℚ
  DP1 : ℚ
  m_FW : ℚ
  m_SW : ℚ
  fw_pump_freq : ℚ
  sw_pump_freq : ℚ
  fw_pump_count : ℕ
  sw_pump_count : ℕ
  engine_load : ℚ
  heat_exchanger_efficiency : ℚ
  operating_hours : ℚ
  alarm_active : Bool
  alarm_message : Option AlarmMsg
  sw_init : Bool
  prev_t5 : ℚ
  t5_direction : Option Dir
  last_adjustment : Option Dir
  simulation_mode : Bool
  user_input_mode : Bool
  rng : List ℚ
  hist : List Snapshot
deriving DecidableEq, Repr

/-- Heat-capacity rate of the fresh-water side:
C_fw = m_FW * rho_fw * cp_fw / 3600 with rho_fw = 1000, cp_fw = 4200. -/
def C_fw (s : State) : ℚ := s.m_FW * 1000 * 4200 / 3600

/-- Heat-capacity rate of the sea-water side:
C_sw = m_SW * rho_sw * cp_sw / 3600 with rho_sw = 1025, cp_sw = 4000. -/
def C_sw (s : State) : ℚ := s.m_SW * 1025 * 4000 / 3600

/-- Value assigned to T5 by calculate_t5 before the physical clamps:
T4 in the degenerate branch (C_fw ≤ 0 or C_sw ≤ 0), otherwise the
effectiveness formula for the limiting side, with ε = 0.75 and the
Python tie rule min(C_fw, C_sw) == C_fw. -/
def t5_raw (s : State) : ℚ :=
  if C_fw s ≤ 0 ∨ C_sw s ≤ 0 then s.T4
  else if min (C_fw s) (C_sw s) = C_fw s then
    s.T4 - (3/4) * (s.T4 - s.T1)
  else
    s.T4 - ((3/4) * C_sw s * (s.T4 - s.T1)) / C_fw s

/-- T5 after the two physical clamps of calculate_t5:
first T5 := min(T4, T5), then T5 := max(T1, T5). -/
def t5_clamped (s : State) : ℚ := max s.T1 (min s.T4 (t5_raw s))

/-- Value assigned to T2 by calculate_t5 (energy balance), computed from
the already clamped T5; the min with T4 is applied only when T2 > T4,
and T2 = T1 when C_sw ≤ 0. -/
def t2_val (s : State) : ℚ :=
  if 0 < C_sw s then
    let t := s.T1 + (C_fw s * (s.T4 - t5_clamped s)) / C_sw s
    if s.T4 < t then min s.T4 t else t
  else s.T1

/-- Method calculate_t5 of CoolingSystemController (identical logic in
new_AI_UI_0314.py and new_AI_UI_0313_1.py): writes the new T5 and T2. -/
def calculate_t5 (s : State) : State :=
  { s with T5 := t5_clamped s, T2 := t2_val s }

/-- Method calculate_t2: delegates to calculate_t5. -/
def calculate_t2 (s : State) : State := calculate_t5 s

/-- Default field values set by CoolingSystemController.__init__ before
its closing update_flow_rates() call. -/
def baseState : State :=
  { T1 := 25, T2 := 30, T4 := 36, T5 := 32, DP1 := 3/2
  , m_FW := 0, m_SW := 0
  , fw_pump_freq := 45, sw_pump_freq := 60
  , fw_pump_count := 2, sw_pump_count := 2
  , engine_load := 75
  , heat_exchanger_efficiency := 3/4
  , operating_hours := 0
  , alarm_active := false, alarm_message := none
  , sw_init := false, prev_t5 := 0
  , t5_direction := none, last_adjustment := none
  , simulation_mode := true, user_input_mode := false
  , rng := [], hist := [] }

theorem C_fw_nonneg {s : State} (h : 0 ≤ s.m_FW) : 0 ≤ C_fw s := by
  unfold C_fw
  positivity

theorem C_sw_nonneg {s : State} (h : 0 ≤ s.m_SW) : 0 ≤ C_sw s := by
  unfold C_sw
  positivity

theorem t5_clamped_ge (s : State) : s.T1 ≤ t5_clamped s := le_max_left _ _

theorem t5_clamped_le {s : State} (h : s.T1 ≤ s.T4) : t5_clamped s ≤ s.T4 :=
  max_le h (min_le_left _ _)

theorem t2_val_bounds {s : State} (hfw : 0 ≤ s.m_FW) (h14 : s.T1 ≤ s.T4) :
    s.T1 ≤ t2_val s ∧ t2_val s ≤ s.T4 := by
  unfold t2_val
  split
  · next hsw =>
    have hCfw : 0 ≤ C_fw s := C_fw_nonneg hfw
    have ht5 : t5_clamped s ≤ s.T4 := t5_clamped_le h14
    have hq : 0 ≤ (C_fw s * (s.T4 - t5_clamped s)) / C_sw s := by
      apply div_nonneg
      · exact mul_nonneg hCfw (by linarith)
      · linarith
    dsimp only
    split
    · next hgt =>
      constructor
      · exact le_min h14 (by linarith)
      · exact min_le_left _ _
    · next hle =>
      constructor
      · linarith
      · linarith [not_lt.mp hle]
  · exact ⟨le_refl _, h14⟩

/-- C1: every invocation of the thermal solver calculate_t5 with
nonnegative flows m_FW, m_SW and inlet temperatures T1 ≤ T4 yields a
state whose outlet temperatures satisfy T1 ≤ T5 ≤ T4 and T1 ≤ T2 ≤ T4
(the inlet temperatures T1, T4 are left unchanged by the solver). -/
theorem calculate_t5_invariant (s : State)
    (hfw : 0 ≤ s.m_FW) (_hsw : 0 ≤ s.m_SW) (h14 : s.T1 ≤ s.T4) :
    (calculate_t5 s).T1 ≤ (calculate_t5 s).T5 ∧
    (calculate_t5 s).T5 ≤ (calculate_t5 s).T4 ∧
    (calculate_t5 s).T1 ≤ (calculate_t5 s).T2 ∧
    (calculate_t5 s).T2 ≤ (calculate_t5 s).T4 ∧
    (calculate_t5 s).T1 = s.T1 ∧ (calculate_t5 s).T4 = s.T4 := by
  have h2 := t2_val_bounds hfw h14
  exact ⟨t5_clamped_ge s, t5_clamped_le h14, h2.1, h2.2, rfl, rfl⟩

/-- Witness for C1 at the constructor defaults with m_FW = m_SW = 0. -/
theorem calculate_t5_invariant_witness :
    (0 : ℚ) ≤ baseState.m_FW ∧ (0 : ℚ) ≤ baseState.m_SW ∧
    baseState.T1 ≤ baseState.T4 ∧
    (calculate_t5 baseState).T1 ≤ (calculate_t5 baseState).T5 := by
  refine ⟨by norm_num [baseState], by norm_num [baseState], by norm_num [baseState], ?_⟩
  exact (calculate_t5_invariant baseState (by norm_num [baseState])
    (by norm_num [baseState]) (by norm_num [baseState])).1

/-- Counterexample to C2 as stated: with zero flow on both sides and
T1 > T4 (T1 = 36, inside the documented caller range [0, 36], and the
unconstrained T4 = 30), the physical clamps still run after the
degenerate branch, so calculate_t5 yields T5 = max(T1, T4) = 36 ≠ T4. -/
theorem calculate_t5_zero_flow_cex :
    ¬ ((calculate_t5 { baseState with T1 := 36, T4 := 30, m_FW := 0, m_SW := 0 }).T5 =
        (30 : ℚ) ∧
       (calculate_t5 { baseState with T1 := 36, T4 := 30, m_FW := 0, m_SW := 0 }).T2 =
        (36 : ℚ)) := by
  intro h
  have h5 := h.1
  norm_num [calculate_t5, t5_clamped, t5_raw, t2_val, C_fw, C_sw, baseState] at h5

/-- C2 amended: for every input state with m_FW = 0 or m_SW = 0 and
T1 ≤ T4 (the clamps make the conclusion false when T1 > T4), the
thermal solver sets T5 = T4 and T2 = T1 exactly. -/
theorem calculate_t5_zero_flow (s : State)
    (hz : s.m_FW = 0 ∨ s.m_SW = 0) (h14 : s.T1 ≤ s.T4) :
    (calculate_t5 s).T5 = s.T4 ∧ (calculate_t5 s).T2 = s.T1 := by
  have hdeg : C_fw s ≤ 0 ∨ C_sw s ≤ 0 := by
    rcases hz with h | h
    · exact Or.inl (by unfold C_fw; rw [h]; norm_num)
    · exact Or.inr (by unfold C_sw; rw [h]; norm_num)
  have hraw : t5_raw s = s.T4 := by unfold t5_raw; rw [if_pos hdeg]
  have hclamp : t5_clamped s = s.T4 := by
    unfold t5_clamped
    rw [hraw, min_self, max_eq_right h14]
  have ht2 : t2_val s = s.T1 := by
    unfold t2_val
    split
    · next hsw =>
      have hfw0 : s.m_FW = 0 := by
        rcases hz with h | h
        · exact h
        · exfalso
          have : C_sw s ≤ 0 := by unfold C_sw; rw [h]; norm_num
          linarith
      have hC : C_fw s = 0 := by unfold C_fw; rw [hfw0]; norm_num
      rw [hC]
      simp only [zero_mul, zero_div, add_zero]
      rw [if_neg (by push_neg; exact h14)]
    · rfl
  exact ⟨by simpa [calculate_t5] using hclamp, by simpa [calculate_t5] using ht2⟩

/-- Witness for the amended C2 at m_FW = 0, m_SW = 0, T1 = 25 ≤ T4 = 36. -/
theorem calculate_t5_zero_flow_witness :
    (baseState.m_FW = 0 ∨ baseState.m_SW = 0) ∧
    baseState.T1 ≤ baseState.T4 ∧
    (calculate_t5 baseState).T5 = baseState.T4 ∧
    (calculate_t5 baseState).T2 = baseState.T1 := by
  have h := calculate_t5_zero_flow baseState (Or.inl (by norm_num [baseState]))
    (by norm_num [baseState])
  exact ⟨Or.inl (by norm_num [baseState]), by norm_num [baseState], h.1, h.2⟩

/-- Target frequency computed by adjust_fw_pump_frequency from T4:
piecewise law on delta_t = T4 - 36 followed by the [40, 60] range clamp
max(40.0, min(60.0, desired_freq)). -/
def fw_desired (T4 : ℚ) : ℚ :=
  let delta_t := T4 - 36
  let raw :=
    if 17 ≤ delta_t then 60
    else if delta_t ≤ 0 then 40
    else 40 + delta_t / 17 * 20
  max 40 (min 60 raw)

/-- Method adjust_fw_pump_frequency: commits the target immediately
(the Python inequality test before the assignment only gates logging). -/
def adjust_fw_pump_frequency (s : State) : State :=
  { s with fw_pump_freq := fw_desired s.T4 }

/-- Direction of the T5 trend with the 0.05 °C deadband: 'up' above
prev_t5 + 0.05, 'down' below prev_t5 - 0.05, otherwise the previous
direction is retained. -/
def sw_current_direction (s : State) : Option Dir :=
  if s.prev_t5 + 1/20 < s.T5 then some Dir.up
  else if s.T5 < s.prev_t5 - 1/20 then some Dir.down
  else s.t5_direction

/-- Python test `t5_direction is not None and current_direction is not
None and t5_direction != current_direction`. -/
def sw_direction_changed (prev cur : Option Dir) : Bool :=
  prev.isSome && cur.isSome && decide (prev ≠ cur)

/-- Desired frequency and new last_adjustment chosen by the branch
ladder of adjust_sw_pump_frequency (before the [35, 60] clamp). -/
def sw_desired (s : State) : ℚ × Option Dir :=
  let cur := sw_current_direction s
  let changed := sw_direction_changed s.t5_direction cur
  if 36 < s.T5 then
    if s.last_adjustment ≠ some Dir.up ∨ changed = false then
      (s.sw_pump_freq + 2, some Dir.up)
    else (s.sw_pump_freq, s.last_adjustment)
  else if s.T5 < 34 then
    if s.last_adjustment ≠ some Dir.down ∨ changed = false then
      (s.sw_pump_freq - 2, some Dir.down)
    else (s.sw_pump_freq, s.last_adjustment)
  else (s.sw_pump_freq, s.last_adjustment)

/-- Body of adjust_sw_pump_frequency after the lazy first-call seeding:
clamp the desired frequency to [35, 60], commit it, and store the new
prev_t5 and t5_direction. -/
def adjust_sw_step (s : State) : State :=
  { s with sw_pump_freq := max 35 (min 60 (sw_desired s).1),
           prev_t5 := s.T5,
           t5_direction := sw_current_direction s,
           last_adjustment := (sw_desired s).2 }

/-- Method adjust_sw_pump_frequency: on the first call (modelled by
sw_init = false, standing for the missing sw_base_freq attribute) it
seeds sw_pump_freq = 60, prev_t5 = T5 and clears both direction fields,
then runs the adjustment ladder. -/
def adjust_sw_pump_frequency (s : State) : State :=
  adjust_sw_step
    (if s.sw_init = true then s
     else { s with sw_pump_freq := 60, prev_t5 := s.T5,
                   t5_direction := none, last_adjustment := none,
                   sw_init := true })

theorem fw_desired_eq_clamp (T4 : ℚ) :
    fw_desired T4 = max 40 (min 60 (40 + (T4 - 36) / 17 * 20)) := by
  unfold fw_desired
  dsimp only
  have hlin : (T4 - 36) / 17 * 20 = (T4 - 36) * (20 / 17) := by ring
  split_ifs with h1 h2
  · have h60 : (60 : ℚ) ≤ 40 + (T4 - 36) / 17 * 20 := by linarith [hlin]
    rw [min_self, min_eq_left h60]
  · have h40 : 40 + (T4 - 36) / 17 * 20 ≤ (40 : ℚ) := by linarith [hlin]
    rw [min_eq_right (by norm_num : (40 : ℚ) ≤ 60), max_self,
      min_eq_right (by linarith), max_eq_left h40]
  · rfl

/-- C5: the fresh-water controller commits 60 Hz when Δ = T4 - 36 ≥ 17,
40 Hz when Δ ≤ 0, and 40 + (Δ/17)·20 Hz otherwise, immediately and
independently of the previous frequency; the committed value lies in
[40, 60], is monotonically nondecreasing in Δ, and is (20/17)-Lipschitz
in Δ (hence continuous), flat outside [0, 17]. -/
theorem fw_controller_spec (T4 : ℚ) :
    (17 ≤ T4 - 36 → fw_desired T4 = 60) ∧
    (T4 - 36 ≤ 0 → fw_desired T4 = 40) ∧
    (0 < T4 - 36 → T4 - 36 < 17 → fw_desired T4 = 40 + (T4 - 36) / 17 * 20) ∧
    40 ≤ fw_desired T4 ∧ fw_desired T4 ≤ 60 ∧
    (∀ T4' : ℚ, T4 ≤ T4' → fw_desired T4 ≤ fw_desired T4') ∧
    (∀ T4' : ℚ, |fw_desired T4 - fw_desired T4'| ≤ 20 / 17 * |T4 - T4'|) ∧
    (∀ s : State, s.T4 = T4 →
      (adjust_fw_pump_frequency s).fw_pump_freq = fw_desired T4) := by
  refine ⟨?_, ?_, ?_, ?_, ?_, ?_, ?_, ?_⟩
  · intro h
    unfold fw_desired
    dsimp only
    rw [if_pos h, min_eq_right (by norm_num), max_eq_right (by norm_num)]
  · intro h
    unfold fw_desired
    dsimp only
    rw [if_neg (by intro hc; linarith), if_pos h, min_eq_right (by norm_num),
      max_eq_right (by norm_num)]
  · intro h0 h17
    have hlin : (T4 - 36) / 17 * 20 = (T4 - 36) * (20 / 17) := by ring
    unfold fw_desired
    dsimp only
    rw [if_neg (by intro hc; linarith), if_neg (by intro hc; linarith),
      min_eq_right (by rw [hlin]; nlinarith),
      max_eq_right (by rw [hlin]; nlinarith)]
  · rw [fw_desired_eq_clamp]; exact le_max_left _ _
  · rw [fw_desired_eq_clamp]
    exact max_le (by norm_num) (min_le_left _ _)
  · intro T4' h
    rw [fw_desired_eq_clamp, fw_desired_eq_clamp]
    have hlin : 40 + (T4 - 36) / 17 * 20 ≤ 40 + (T4' - 36) / 17 * 20 := by
      have e1 : (T4 - 36) / 17 * 20 = (T4 - 36) * (20 / 17) := by ring
      have e2 : (T4' - 36) / 17 * 20 = (T4' - 36) * (20 / 17) := by ring
      rw [e1, e2]; nlinarith
    exact max_le_max le_rfl (min_le_min le_rfl hlin)
  · intro T4'
    rw [fw_desired_eq_clamp, fw_desired_eq_clamp]
    have h1 : |max 40 (min 60 (40 + (T4 - 36) / 17 * 20)) -
        max 40 (min 60 (40 + (T4' - 36) / 17 * 20))| ≤
        |(40 + (T4 - 36) / 17 * 20) - (40 + (T4' - 36) / 17 * 20)| := by
      rw [max_comm (40 : ℚ) (min 60 (40 + (T4 - 36) / 17 * 20)),
        max_comm (40 : ℚ) (min 60 (40 + (T4' - 36) / 17 * 20))]
      refine le_trans (abs_max_sub_max_le_abs _ _ _) ?_
      refine le_trans (abs_min_sub_min_le_max _ _ _ _) ?_
      simp
    refine le_trans h1 (le_of_eq ?_)
    have he : (40 + (T4 - 36) / 17 * 20) - (40 + (T4' - 36) / 17 * 20) =
        20 / 17 * (T4 - T4') := by ring
    rw [he, abs_mul, abs_of_pos (by norm_num : (0 : ℚ) < 20 / 17)]
  · intro s hs
    simp [adjust_fw_pump_frequency, hs]

/-- Witness for C5 at T4 = 38 (Δ = 2, the spec's worked scenario):
the interpolation branch applies and yields 40 + 2/17·20. -/
theorem fw_controller_spec_witness :
    (0 : ℚ) < 38 - 36 ∧ (38 : ℚ) - 36 < 17 ∧
    fw_desired 38 = 40 + (38 - 36) / 17 * 20 := by
  refine ⟨by norm_num, by norm_num, ?_⟩
  exact (fw_controller_spec 38).2.2.1 (by norm_num) (by norm_num)

/-- C3: branch behaviour of the sea-water frequency controller: the
deadband direction tracking, the meaning of direction_changed, the
increase-by-2 rule above 36 °C with its hold exception, the mirrored
decrease rule below 34 °C, and the dead zone on [34, 36]. -/
theorem sw_controller_branch_spec (s : State) :
    (s.prev_t5 + 1/20 < s.T5 → sw_current_direction s = some Dir.up) ∧
    (s.T5 < s.prev_t5 - 1/20 → sw_current_direction s = some Dir.down) ∧
    (s.prev_t5 - 1/20 ≤ s.T5 → s.T5 ≤ s.prev_t5 + 1/20 →
      sw_current_direction s = s.t5_direction) ∧
    (∀ prev cur : Option Dir,
      sw_direction_changed prev cur = true ↔
        prev ≠ none ∧ cur ≠ none ∧ prev ≠ cur) ∧
    (36 < s.T5 →
      ¬ (s.last_adjustment = some Dir.up ∧
         sw_direction_changed s.t5_direction (sw_current_direction s) = true) →
      sw_desired s = (s.sw_pump_freq + 2, some Dir.up)) ∧
    (36 < s.T5 → s.last_adjustment = some Dir.up →
      sw_direction_changed s.t5_direction (sw_current_direction s) = true →
      sw_desired s = (s.sw_pump_freq, some Dir.up)) ∧
    (s.T5 < 34 →
      ¬ (s.last_adjustment = some Dir.down ∧
         sw_direction_changed s.t5_direction (sw_current_direction s) = true) →
      sw_desired s = (s.sw_pump_freq - 2, some Dir.down)) ∧
    (s.T5 < 34 → s.last_adjustment = some Dir.down →
      sw_direction_changed s.t5_direction (sw_current_direction s) = true →
      sw_desired s = (s.sw_pump_freq, some Dir.down)) ∧
    (34 ≤ s.T5 → s.T5 ≤ 36 → sw_desired s = (s.sw_pump_freq, s.last_adjustment)) := by
  refine ⟨?_, ?_, ?_, ?_, ?_, ?_, ?_, ?_, ?_⟩
  · intro h; unfold sw_current_direction; rw [if_pos h]
  · intro h
    unfold sw_current_direction
    rw [if_neg (by intro hc; linarith), if_pos h]
  · intro h1 h2
    unfold sw_current_direction
    rw [if_neg (by intro hc; linarith), if_neg (by intro hc; linarith)]
  · intro prev cur
    cases prev <;> cases cur <;> simp [sw_direction_changed]
  · intro h36 hno
    unfold sw_desired
    dsimp only
    rw [if_pos h36, if_pos ?_]
    rcases Decidable.not_and_iff_or_not.mp hno with h | h
    · exact Or.inl h
    · exact Or.inr (by simpa using h)
  · intro h36 hup hch
    unfold sw_desired
    dsimp only
    rw [if_pos h36, if_neg (by push_neg; exact ⟨by simp [hup], by simp [hch]⟩), hup]
  · intro h34 hno
    unfold sw_desired
    dsimp only
    rw [if_neg (by intro hc; linarith), if_pos h34, if_pos ?_]
    rcases Decidable.not_and_iff_or_not.mp hno with h | h
    · exact Or.inl h
    · exact Or.inr (by simpa using h)
  · intro h34 hdown hch
    unfold sw_desired
    dsimp only
    rw [if_neg (by intro hc; linarith), if_pos h34,
      if_neg (by push_neg; exact ⟨by simp [hdown], by simp [hch]⟩), hdown]
  · intro hlo hhi
    unfold sw_desired
    dsimp only
    rw [if_neg (by intro hc; linarith), if_neg (by intro hc; linarith)]

/-- Witness for C3 in the dead zone: T5 = 35 with the constructor
defaults holds the current frequency. -/
theorem sw_controller_branch_spec_witness :
    (34 : ℚ) ≤ 35 ∧ (35 : ℚ) ≤ 36 ∧
    sw_desired { baseState with T5 := 35 } =
      ({ baseState with T5 := 35 }.sw_pump_freq,
       { baseState with T5 := 35 }.last_adjustment) := by
  refine ⟨by norm_num, by norm_num, ?_⟩
  exact (sw_controller_branch_spec { baseState with T5 := 35 }).2.2.2.2.2.2.2.2
    (by norm_num [baseState]) (by norm_num [baseState])

/-- State exhibiting a clamp-truncated step of the sea-water
controller: an initialized controller memory at sw_pump_freq = 36 Hz
(reachable from the seeded 60 Hz by twelve decrease steps) with a
falling T5 below the 34 °C threshold. -/
def swCexState : State :=
  { baseState with sw_init := true, sw_pump_freq := 36, T5 := 33,
                   prev_t5 := 35, t5_direction := none,
                   last_adjustment := none }

/-- Counterexample to C4 as stated: from sw_pump_freq = 36 with
T5 = 33 < 34 the desired step is -2 Hz, but the [35, 60] clamp commits
35 Hz, a change of -1 Hz, which is none of +2, -2 or 0. -/
theorem sw_freq_step_cex :
    (adjust_sw_pump_frequency swCexState).sw_pump_freq -
        swCexState.sw_pump_freq = -1 ∧
    ¬ ((adjust_sw_pump_frequency swCexState).sw_pump_freq -
          swCexState.sw_pump_freq = 2 ∨
       (adjust_sw_pump_frequency swCexState).sw_pump_freq -
          swCexState.sw_pump_freq = -2 ∨
       (adjust_sw_pump_frequency swCexState).sw_pump_freq -
          swCexState.sw_pump_freq = 0) := by
  have h : (adjust_sw_pump_frequency swCexState).sw_pump_freq = 35 := by
    show max 35 (min 60 (sw_desired swCexState).1) = 35
    have hd : (sw_desired swCexState).1 = 34 := by
      unfold sw_desired sw_current_direction sw_direction_changed
      norm_num [swCexState, baseState]
    rw [hd]
    norm_num
  rw [h]
  norm_num [swCexState, baseState]

/-- C4 amended: after first-call initialization, each invocation of the
sea-water frequency controller changes sw_pump_freq by at most 2 Hz in
absolute value (exactly +2, -2 or 0 except when the [35, 60] clamp
truncates a step near a bound), and the committed frequency always lies
in [35, 60]. -/
theorem sw_freq_step_bounded (s : State) (hinit : s.sw_init = true)
    (hlo : 35 ≤ s.sw_pump_freq) (hhi : s.sw_pump_freq ≤ 60) :
    35 ≤ (adjust_sw_pump_frequency s).sw_pump_freq ∧
    (adjust_sw_pump_frequency s).sw_pump_freq ≤ 60 ∧
    |(adjust_sw_pump_frequency s).sw_pump_freq - s.sw_pump_freq| ≤ 2 := by
  have hs0 : (if s.sw_init = true then s
      else { s with sw_pump_freq := 60, prev_t5 := s.T5,
                    t5_direction := none, last_adjustment := none,
                    sw_init := true }) = s := if_pos hinit
  have hfreq : (adjust_sw_pump_frequency s).sw_pump_freq =
      max 35 (min 60 (sw_desired s).1) := by
    unfold adjust_sw_pump_frequency
    rw [hs0]
    rfl
  have hcases : (sw_desired s).1 = s.sw_pump_freq + 2 ∨
      (sw_desired s).1 = s.sw_pump_freq - 2 ∨
      (sw_desired s).1 = s.sw_pump_freq := by
    unfold sw_desired
    dsimp only
    split_ifs <;>
      first
      | exact Or.inl rfl
      | exact Or.inr (Or.inl rfl)
      | exact Or.inr (Or.inr rfl)
  rw [hfreq]
  refine ⟨le_max_left _ _, max_le (by norm_num) (min_le_left _ _), ?_⟩
  rw [abs_le]
  rcases hcases with hd | hd | hd <;> rw [hd] <;> constructor <;>
    simp only [max_def, min_def] <;> split_ifs <;> linarith

/-- Witness for the amended C4: an initialized state at 60 Hz in the
dead zone (T5 = 35) keeps the frequency inside [35, 60]. -/
theorem sw_freq_step_bounded_witness :
    ({ baseState with sw_init := true, T5 := 35 } : State).sw_init = true ∧
    (35 : ℚ) ≤ { baseState with sw_init := true, T5 := 35 }.sw_pump_freq ∧
    ({ baseState with sw_init := true, T5 := 35 } : State).sw_pump_freq ≤ 60 ∧
    |(adjust_sw_pump_frequency { baseState with sw_init := true, T5 := 35 }).sw_pump_freq -
      ({ baseState with sw_init := true, T5 := 35 } : State).sw_pump_freq| ≤ 2 := by
  refine ⟨rfl, by norm_num [baseState], by norm_num [baseState], ?_⟩
  exact (sw_freq_step_bounded { baseState with sw_init := true, T5 := 35 } rfl
    (by norm_num [baseState]) (by norm_num [baseState])).2.2

/-- Method adjust_pump_count_by_load: stages both pump counts from the
engine load with strict threshold 10.0, then applies the ceiling-only
60 Hz clamp to both frequencies. -/
def adjust_pump_count_by_load (s : State) : State :=
  let s1 :=
    if s.engine_load < 10 then
      { s with fw_pump_count := if 1 < s.fw_pump_count then 1 else s.fw_pump_count,
               sw_pump_count := if 1 < s.sw_pump_count then 1 else s.sw_pump_count }
    else
      { s with fw_pump_count := if s.fw_pump_count < 2 then 2 else s.fw_pump_count,
               sw_pump_count := if s.sw_pump_count < 2 then 2 else s.sw_pump_count }
  { s1 with fw_pump_freq := if 60 < s1.fw_pump_freq then 60 else s1.fw_pump_freq,
            sw_pump_freq := if 60 < s1.sw_pump_freq then 60 else s1.sw_pump_freq }

/-- C8: after the pump-count scheduler runs on counts in {1, 2}, both
counts equal 1 iff engine_load < 10.0 and both equal 2 otherwise
(2 at exactly 10.0), and each frequency is only ceiling-clamped:
it becomes min(old, 60) and is never raised. -/
theorem pump_count_spec (s : State)
    (hfc : s.fw_pump_count = 1 ∨ s.fw_pump_count = 2)
    (hsc : s.sw_pump_count = 1 ∨ s.sw_pump_count = 2) :
    (((adjust_pump_count_by_load s).fw_pump_count = 1 ∧
      (adjust_pump_count_by_load s).sw_pump_count = 1) ↔ s.engine_load < 10) ∧
    (((adjust_pump_count_by_load s).fw_pump_count = 2 ∧
      (adjust_pump_count_by_load s).sw_pump_count = 2) ↔ ¬ s.engine_load < 10) ∧
    (adjust_pump_count_by_load s).fw_pump_freq = min s.fw_pump_freq 60 ∧
    (adjust_pump_count_by_load s).sw_pump_freq = min s.sw_pump_freq 60 ∧
    (adjust_pump_count_by_load s).fw_pump_freq ≤ s.fw_pump_freq ∧
    (adjust_pump_count_by_load s).sw_pump_freq ≤ s.sw_pump_freq := by
  unfold adjust_pump_count_by_load
  dsimp only
  by_cases hload : s.engine_load < 10
  · rw [if_pos hload]
    dsimp only
    refine ⟨?_, ?_, ?_, ?_, ?_, ?_⟩
    · refine ⟨fun _ => hload, fun _ => ?_⟩
      rcases hfc with h1 | h1 <;> rcases hsc with h2 | h2 <;> simp [h1, h2]
    · refine ⟨fun h => ?_, fun h => absurd hload h⟩
      exfalso
      rcases hfc with h1 | h1 <;> rcases hsc with h2 | h2 <;>
        simp [h1, h2] at h
    · rw [min_def]; split_ifs <;> linarith
    · rw [min_def]; split_ifs <;> linarith
    · split_ifs <;> linarith
    · split_ifs <;> linarith
  · rw [if_neg hload]
    dsimp only
    refine ⟨?_, ?_, ?_, ?_, ?_, ?_⟩
    · refine ⟨fun h => ?_, fun h => absurd h hload⟩
      exfalso
      rcases hfc with h1 | h1 <;> rcases hsc with h2 | h2 <;>
        simp [h1, h2] at h
    · refine ⟨fun _ => hload, fun _ => ?_⟩
      rcases hfc with h1 | h1 <;> rcases hsc with h2 | h2 <;> simp [h1, h2]
    · rw [min_def]; split_ifs <;> linarith
    · rw [min_def]; split_ifs <;> linarith
    · split_ifs <;> linarith
    · split_ifs <;> linarith

/-- State at the staging boundary: engine_load exactly 10 with both
counts at 1. -/
def boundaryState : State :=
  { baseState with engine_load := 10, fw_pump_count := 1, sw_pump_count := 1 }

/-- Witness for C8 at the boundary engine_load = 10 with counts (1, 1):
both counts become 2. -/
theorem pump_count_spec_witness :
    (boundaryState.fw_pump_count = 1 ∨ boundaryState.fw_pump_count = 2) ∧
    (adjust_pump_count_by_load boundaryState).fw_pump_count = 2 ∧
    (adjust_pump_count_by_load boundaryState).sw_pump_count = 2 := by
  refine ⟨Or.inl rfl, ?_⟩
  have h := (pump_count_spec boundaryState (Or.inl rfl) (Or.inl rfl)).2.1
  exact h.mpr (by norm_num [boundaryState, baseState])

/-- Method check_alarm_conditions: re-evaluates the alarm flag and
message from scratch, each true condition overwriting the message in
the order T5-high, T2-high, DP1-low / DP1-high (the two DP1 tests form
an if/elif pair). The previous-alarm bookkeeping in the source only
gates logging. -/
def check_alarm_conditions (s : State) : State :=
  let am0 : Bool × Option AlarmMsg := (false, none)
  let am1 := if 40 < s.T5 then (true, some AlarmMsg.t5High) else am0
  let am2 := if 49 < s.T2 then (true, some AlarmMsg.t2High) else am1
  let am3 := if s.DP1 < 1/2 then (true, some AlarmMsg.dp1Low)
             else if 5/2 < s.DP1 then (true, some AlarmMsg.dp1High)
             else am2
  { s with alarm_active := am3.1, alarm_message := am3.2 }

/-- Message demanded by the specification: the last-checked true
condition in the fixed order T5-high, T2-high, DP1-low, DP1-high wins
(the two DP1 conditions are mutually exclusive). Written from the
spec's words for comparison with check_alarm_conditions. -/
def spec_alarm_message (T5 T2 DP1 : ℚ) : Option AlarmMsg :=
  if 5/2 < DP1 then some AlarmMsg.dp1High
  else if DP1 < 1/2 then some AlarmMsg.dp1Low
  else if 49 < T2 then some AlarmMsg.t2High
  else if 40 < T5 then some AlarmMsg.t5High
  else none

/-- C7: after every alarm evaluation, alarm_active holds iff one of the
four threshold conditions holds, the message is that of the last true
condition in the fixed check order, and when no condition holds the
alarm is inactive with the message cleared. -/
theorem alarm_spec (s : State) :
    ((check_alarm_conditions s).alarm_active = true ↔
      (40 < s.T5 ∨ 49 < s.T2 ∨ s.DP1 < 1/2 ∨ 5/2 < s.DP1)) ∧
    (check_alarm_conditions s).alarm_message =
      spec_alarm_message s.T5 s.T2 s.DP1 ∧
    (¬ (40 < s.T5 ∨ 49 < s.T2 ∨ s.DP1 < 1/2 ∨ 5/2 < s.DP1) →
      (check_alarm_conditions s).alarm_active = false ∧
      (check_alarm_conditions s).alarm_message = none) := by
  unfold check_alarm_conditions spec_alarm_message
  dsimp only
  refine ⟨?_, ?_, ?_⟩
  · split_ifs <;> simp_all
  · split_ifs <;> first | rfl | (exfalso; linarith)
  · intro h
    push_neg at h
    obtain ⟨h1, h2, h3, h4⟩ := h
    rw [if_neg (by intro hc; exact absurd hc (not_lt.mpr h3)),
      if_neg (by intro hc; exact absurd hc (not_lt.mpr h4)),
      if_neg (by intro hc; exact absurd hc (not_lt.mpr h2)),
      if_neg (by intro hc; exact absurd hc (not_lt.mpr h1))]
    exact ⟨rfl, rfl⟩

/-- Witness for C7 at the spec's scenario T5 = 40.5, everything else
nominal: the alarm fires with the T5-high message. -/
theorem alarm_spec_witness :
    (check_alarm_conditions { baseState with T5 := 81/2 }).alarm_active = true ∧
    (check_alarm_conditions { baseState with T5 := 81/2 }).alarm_message =
      some AlarmMsg.t5High := by
  have h := alarm_spec { baseState with T5 := 81/2 }
  refine ⟨h.1.mpr (Or.inl (by norm_num [baseState])), ?_⟩
  rw [h.2.1]
  norm_num [spec_alarm_message, baseState]

/-- Method update_flow_rates: flow = base * (freq / 60) * count with
base 1290 m³/h for fresh water and 1500 m³/h for sea water. -/
def update_flow_rates (s : State) : State :=
  { s with m_FW := 1290 * (s.fw_pump_freq / 60) * s.fw_pump_count,
           m_SW := 1500 * (s.sw_pump_freq / 60) * s.sw_pump_count }

/-- Method update_heat_exchanger_efficiency: pins the efficiency at 0.75. -/
def update_heat_exchanger_efficiency (s : State) : State :=
  { s with heat_exchanger_efficiency := 3/4 }

/-- Method simulate_temperature_changes: perturbs T1 and T4 by
0.05 * randn() (the two draws are taken from the rng stream), clamps
T1 to [0, 36] and T4 to [36, 53], and updates the efficiency from the
operating-hours age factor. Identical in both source lineages. -/
def simulate_temperature_changes (s : State) : State :=
  { s with T1 := max 0 (min 36 (s.T1 + (1/20) * s.rng.headD 0)),
           T4 := max 36 (min 53 (s.T4 + (1/20) * (s.rng.drop 1).headD 0)),
           heat_exchanger_efficiency :=
             (17/20) * max (3/5) (1 - s.operating_hours / 10000),
           rng := s.rng.drop 2 }

/-- Refinement loop shared by update_system and manual_update: up to
`n` passes of calculate_t2 followed by calculate_t5, with early exit
once both |ΔT2| < 0.01 and |ΔT5| < 0.01 between passes (the sources
run it with n = 3). -/
def refine_iters : ℕ → State → State
  | 0, s => s
  | n + 1, s =>
      let old_t2 := s.T2
      let s1 := calculate_t2 s
      let old_t5 := s1.T5
      let s2 := calculate_t5 s1
      if |s2.T2 - old_t2| < 1/100 ∧ |s2.T5 - old_t5| < 1/100 then s2
      else refine_iters n s2

/-- Snapshot of the fields appended to the history arrays at the end of
update_system. -/
def snapshotOf (s : State) : Snapshot :=
  { t1 := s.T1, t2 := s.T2, t4 := s.T4, t5 := s.T5, dp1 := s.DP1,
    fwFreq := s.fw_pump_freq, swFreq := s.sw_pump_freq,
    fwCount := s.fw_pump_count, swCount := s.sw_pump_count,
    efficiency := s.heat_exchanger_efficiency,
    engineLoad := s.engine_load }

/-- Trimming step of update_system: when the buffer exceeds 1000
entries keep only the last 1000 (Python slice [-1000:]). -/
def trimHist {α : Type} (l : List α) : List α :=
  if 1000 < l.length then l.drop (l.length - 1000) else l

/-- One history-buffer transition of update_system: append the new
snapshot, then trim to capacity 1000. -/
def histStep {α : Type} (l : List α) (x : α) : List α := trimHist (l ++ [x])

/-- Simulation phase shared by both update_system lineages: in
simulation mode with user input off, run simulate_temperature_changes,
otherwise leave the state unchanged. -/
def update_system_sim_phase (s : State) : State :=
  if s.simulation_mode = true ∧ s.user_input_mode = false then
    simulate_temperature_changes s
  else s

/-- State with which update_system of new_AI_UI_0314.py enters its
refinement loop: the simulation phase only — this lineage has no
initialization guard on T5 before the loop. -/
def update_system_pre (s : State) : State := update_system_sim_phase s

/-- State with which update_system of new_AI_UI_0313_1.py enters its
refinement loop: simulation phase, then the initialization guard
forcing T5 = T4 - 2.0 whenever |T5 - T4| < 0.1. -/
def update_system_pre_0313 (s : State) : State :=
  let s1 := update_system_sim_phase s
  if |s1.T5 - s1.T4| < 1/10 then { s1 with T5 := s1.T4 - 2 } else s1

/-- Method update_system of new_AI_UI_0314.py: simulation phase,
up-to-3-pass refinement, flow recomputation, efficiency update, both
frequency controllers, pump-count scheduler, alarm evaluation, history
append with capacity trim; returns (T5, T2, DP1). -/
def update_system (s : State) : State × (ℚ × ℚ × ℚ) :=
  let s2 := refine_iters 3 (update_system_pre s)
  let s3 := update_flow_rates s2
  let s4 := update_heat_exchanger_efficiency s3
  let s5 := adjust_fw_pump_frequency s4
  let s6 := adjust_sw_pump_frequency s5
  let s7 := adjust_pump_count_by_load s6
  let s8 := check_alarm_conditions s7
  let s9 := { s8 with hist := histStep s8.hist (snapshotOf s8) }
  (s9, (s9.T5, s9.T2, s9.DP1))

/-- State with which manual_update enters the refinement loop: the
caller's T4, T1, DP1, engine_load are assigned, then the
initialization guard forces T5 = T4 - 2.0 whenever |T5 - T4| < 0.1. -/
def manual_update_pre (s : State) (t4 t1 dp1 el : ℚ) : State :=
  let s1 := { s with T4 := t4, T1 := t1, DP1 := dp1, engine_load := el }
  if |s1.T5 - s1.T4| < 1/10 then { s1 with T5 := s1.T4 - 2 } else s1

/-- Method manual_update of new_AI_UI_0314.py: assign the caller's
inputs, apply the initialization guard, run the up-to-3-pass
refinement, recompute flows, run both frequency controllers, the
pump-count scheduler and the alarm evaluation (no efficiency update,
no history append); returns (T5, T2, DP1). -/
def manual_update (s : State) (t4 t1 dp1 el : ℚ) : State × (ℚ × ℚ × ℚ) :=
  let s2 := refine_iters 3 (manual_update_pre s t4 t1 dp1 el)
  let s3 := update_flow_rates s2
  let s4 := adjust_fw_pump_frequency s3
  let s5 := adjust_sw_pump_frequency s4
  let s6 := adjust_pump_count_by_load s5
  let s7 := check_alarm_conditions s6
  (s7, (s7.T5, s7.T2, s7.DP1))

/-- Counterexample state for the missing guard in update_system of
new_AI_UI_0314.py: T5 equal to T4, with the simulation phase disabled
as on the manual-input path. -/
def preGuardCexState : State :=
  { baseState with T4 := 40, T5 := 40, simulation_mode := false }

/-- Counterexample to C6 as stated: in new_AI_UI_0314.py the periodic
update_system applies no initialization guard; from T5 = T4 = 40
(|T5 - T4| = 0 < 0.1) it enters the refinement loop with T5 still 40,
not T4 - 2.0 = 38. -/
theorem update_pre_no_guard_cex :
    |preGuardCexState.T5 - preGuardCexState.T4| < 1/10 ∧
    (update_system_pre preGuardCexState).T5 ≠ preGuardCexState.T4 - 2 := by
  constructor
  · norm_num [preGuardCexState, baseState]
  · norm_num [update_system_pre, update_system_sim_phase,
      preGuardCexState, baseState]

/-- C6 amended: the initialization guard (force T5 = T4 - 2.0 when
|T5 - T4| < 0.1 before iterating) is applied by manual_update and by
update_system of the new_AI_UI_0313_1.py lineage, but update_system of
new_AI_UI_0314.py enters its refinement loop with T5 unchanged. -/
theorem t5_init_guard_spec :
    (∀ (s : State) (t4 t1 dp1 el : ℚ), |s.T5 - t4| < 1/10 →
      (manual_update_pre s t4 t1 dp1 el).T5 = t4 - 2) ∧
    (∀ s : State,
      |(update_system_sim_phase s).T5 - (update_system_sim_phase s).T4| < 1/10 →
      (update_system_pre_0313 s).T5 = (update_system_sim_phase s).T4 - 2) ∧
    (∀ s : State, (update_system_pre s).T5 = s.T5) := by
  refine ⟨?_, ?_, ?_⟩
  · intro s t4 t1 dp1 el h
    unfold manual_update_pre
    dsimp only
    rw [if_pos h]
  · intro s h
    unfold update_system_pre_0313
    dsimp only
    rw [if_pos h]
  · intro s
    unfold update_system_pre update_system_sim_phase
    split_ifs <;> rfl

/-- Witness for the amended C6: from the constructor defaults a manual
update with t4 = 32 (so |T5 - t4| = 0 < 0.1) forces T5 to 30. -/
theorem t5_init_guard_spec_witness :
    |baseState.T5 - (32 : ℚ)| < 1/10 ∧
    (manual_update_pre baseState 32 25 1 50).T5 = 32 - 2 := by
  refine ⟨by norm_num [baseState], ?_⟩
  exact t5_init_guard_spec.1 baseState 32 25 1 50 (by norm_num [baseState])

theorem histStep_length_le {α : Type} (l : List α) (x : α) :
    (histStep l x).length ≤ 1000 := by
  unfold histStep trimHist
  split_ifs with h <;>
    simp only [List.length_drop, List.length_append, List.length_singleton] at * <;>
      omega

theorem trimHist_eq_drop {α : Type} (l : List α) :
    trimHist l = l.drop (l.length - 1000) := by
  unfold trimHist
  split_ifs with h
  · rfl
  · have h0 : l.length - 1000 = 0 := by omega
    rw [h0, List.drop_zero]

theorem lastN_idem_append {α : Type} (l xs : List α) :
    (l.drop (l.length - 1000) ++ xs).drop
        ((l.drop (l.length - 1000) ++ xs).length - 1000) =
      (l ++ xs).drop ((l ++ xs).length - 1000) := by
  rcases le_or_lt l.length 1000 with hL | hL
  · have h0 : l.length - 1000 = 0 := by omega
    rw [h0, List.drop_zero]
  · have hk : l.length - (l.length - 1000) = 1000 := by omega
    have hlen1 : (l.drop (l.length - 1000)).length = 1000 := by
      rw [List.length_drop, hk]
    rw [List.drop_append_eq_append_drop, List.drop_append_eq_append_drop,
      List.drop_drop]
    have e1 : l.length - 1000 + ((l.drop (l.length - 1000) ++ xs).length - 1000) =
        (l ++ xs).length - 1000 := by
      simp only [List.length_append, hlen1]
      omega
    have e2 : (l.drop (l.length - 1000) ++ xs).length - 1000 -
        (l.drop (l.length - 1000)).length =
        (l ++ xs).length - 1000 - l.length := by
      simp only [List.length_append, hlen1]
      omega
    rw [e1, e2]

theorem foldl_histStep_eq {α : Type} :
    ∀ (xs b : List α), b.length ≤ 1000 →
      List.foldl histStep b xs = (b ++ xs).drop ((b ++ xs).length - 1000)
  | [], b, hb => by
      simp only [List.foldl_nil, List.append_nil]
      have h0 : b.length - 1000 = 0 := by omega
      rw [h0, List.drop_zero]
  | x :: xs, b, hb => by
      rw [List.foldl_cons,
        foldl_histStep_eq xs (histStep b x) (histStep_length_le b x)]
      unfold histStep
      rw [trimHist_eq_drop, lastN_idem_append]
      rw [List.append_assoc]
      rfl

/-- C9: the history buffer of update_system never exceeds 1000
snapshots, and appending 1001 snapshots into an empty buffer through
the append-and-trim step leaves exactly the most recent 1000: the
result is the input sequence with its earliest element dropped. -/
theorem history_buffer_spec :
    (∀ s : State, ((update_system s).1).hist.length ≤ 1000) ∧
    (∀ xs : List Snapshot, xs.length = 1001 →
      List.foldl histStep ([] : List Snapshot) xs = xs.drop 1 ∧
      (List.foldl histStep ([] : List Snapshot) xs).length = 1000) := by
  constructor
  · intro s
    exact histStep_length_le _ _
  · intro xs h
    have he := foldl_histStep_eq xs ([] : List Snapshot) (by simp)
    rw [List.nil_append, h] at he
    have h1 : (1001 : ℕ) - 1000 = 1 := by norm_num
    rw [h1] at he
    refine ⟨he, ?_⟩
    rw [he, List.length_drop, h]

/-- Witness for C9 on a concrete run of 1001 identical snapshots. -/
theorem history_buffer_spec_witness :
    (List.replicate 1001 (snapshotOf baseState)).length = 1001 ∧
    List.foldl histStep ([] : List Snapshot)
        (List.replicate 1001 (snapshotOf baseState)) =
      (List.replicate 1001 (snapshotOf baseState)).drop 1 := by
  refine ⟨by rw [List.length_replicate], ?_⟩
  exact (history_buffer_spec.2 (List.replicate 1001 (snapshotOf baseState))
    (by rw [List.length_replicate])).1

/-- Replace only the random-draw stream of a state, leaving every
controller field untouched. -/
def set_rng (s : State) (r : List ℚ) : State := { s with rng := r }

theorem calculate_t5_set_rng (s : State) (r : List ℚ) :
    calculate_t5 (set_rng s r) = set_rng (calculate_t5 s) r := rfl

theorem update_flow_rates_set_rng (s : State) (r : List ℚ) :
    update_flow_rates (set_rng s r) = set_rng (update_flow_rates s) r := rfl

theorem adjust_fw_set_rng (s : State) (r : List ℚ) :
    adjust_fw_pump_frequency (set_rng s r) =
      set_rng (adjust_fw_pump_frequency s) r := rfl

theorem check_alarm_set_rng (s : State) (r : List ℚ) :
    check_alarm_conditions (set_rng s r) =
      set_rng (check_alarm_conditions s) r := rfl

theorem adjust_sw_set_rng (s : State) (r : List ℚ) :
    adjust_sw_pump_frequency (set_rng s r) =
      set_rng (adjust_sw_pump_frequency s) r := by
  unfold adjust_sw_pump_frequency set_rng
  dsimp only
  split_ifs <;> rfl

theorem adjust_pump_count_set_rng (s : State) (r : List ℚ) :
    adjust_pump_count_by_load (set_rng s r) =
      set_rng (adjust_pump_count_by_load s) r := by
  unfold adjust_pump_count_by_load set_rng
  dsimp only
  split_ifs <;> rfl

theorem manual_update_pre_set_rng (s : State) (t4 t1 dp1 el : ℚ)
    (r : List ℚ) :
    manual_update_pre (set_rng s r) t4 t1 dp1 el =
      set_rng (manual_update_pre s t4 t1 dp1 el) r := by
  unfold manual_update_pre set_rng
  dsimp only
  split_ifs <;> rfl

theorem set_rng_T2 (s : State) (r : List ℚ) : (set_rng s r).T2 = s.T2 := rfl

theorem set_rng_T5 (s : State) (r : List ℚ) : (set_rng s r).T5 = s.T5 := rfl

theorem refine_iters_set_rng (n : ℕ) (s : State) (r : List ℚ) :
    refine_iters n (set_rng s r) = set_rng (refine_iters n s) r := by
  induction n generalizing s with
  | zero => rfl
  | succ n ih =>
      simp only [refine_iters]
      rw [show calculate_t2 (set_rng s r) = set_rng (calculate_t2 s) r from rfl]
      rw [show calculate_t5 (set_rng (calculate_t2 s) r) =
            set_rng (calculate_t5 (calculate_t2 s)) r from rfl]
      simp only [set_rng_T2, set_rng_T5]
      split_ifs
      · rfl
      · exact ih (calculate_t5 (calculate_t2 s))

theorem rng_refine_iters (n : ℕ) (s : State) :
    (refine_iters n s).rng = s.rng := by
  induction n generalizing s with
  | zero => rfl
  | succ n ih =>
      simp only [refine_iters]
      split_ifs
      · rfl
      · exact (ih (calculate_t5 (calculate_t2 s))).trans rfl

theorem rng_adjust_sw (s : State) :
    (adjust_sw_pump_frequency s).rng = s.rng := by
  unfold adjust_sw_pump_frequency adjust_sw_step
  dsimp only
  split_ifs <;> rfl

theorem rng_adjust_pump_count (s : State) :
    (adjust_pump_count_by_load s).rng = s.rng := by
  unfold adjust_pump_count_by_load
  dsimp only
  split_ifs <;> rfl

theorem rng_manual_update_pre (s : State) (t4 t1 dp1 el : ℚ) :
    (manual_update_pre s t4 t1 dp1 el).rng = s.rng := by
  unfold manual_update_pre
  dsimp only
  split_ifs <;> rfl

theorem manual_update_set_rng (s : State) (t4 t1 dp1 el : ℚ)
    (r : List ℚ) :
    manual_update (set_rng s r) t4 t1 dp1 el =
      (set_rng (manual_update s t4 t1 dp1 el).1 r,
       (manual_update s t4 t1 dp1 el).2) := by
  unfold manual_update
  simp only [manual_update_pre_set_rng, refine_iters_set_rng,
    update_flow_rates_set_rng, adjust_fw_set_rng, adjust_sw_set_rng,
    adjust_pump_count_set_rng, check_alarm_set_rng]
  rfl

theorem rng_manual_update (s : State) (t4 t1 dp1 el : ℚ) :
    (manual_update s t4 t1 dp1 el).1.rng = s.rng := by
  unfold manual_update
  dsimp only
  rw [show ∀ u : State, (check_alarm_conditions u).rng = u.rng from fun _ => rfl,
    rng_adjust_pump_count, rng_adjust_sw,
    show ∀ u : State, (adjust_fw_pump_frequency u).rng = u.rng from fun _ => rfl,
    show ∀ u : State, (update_flow_rates u).rng = u.rng from fun _ => rfl,
    rng_refine_iters, rng_manual_update_pre]

theorem rng_update_system_pre (s : State)
    (hsim : s.simulation_mode = true) (huser : s.user_input_mode = false) :
    (update_system_pre s).rng = s.rng.drop 2 := by
  unfold update_system_pre update_system_sim_phase
  rw [if_pos ⟨hsim, huser⟩]
  rfl

/-- C10: manual_update is deterministic and free of the random
perturbation: its post-state and return value are functions of the
pre-state's controller fields and the four arguments only — replacing
the random-draw stream changes nothing except that stream, and the
stream itself is left unconsumed — while the periodic update_system in
simulation mode consumes exactly the two draws of
simulate_temperature_changes. -/
theorem manual_update_no_random (s : State) (t4 t1 dp1 el : ℚ)
    (r r' : List ℚ) :
    (manual_update (set_rng s r) t4 t1 dp1 el).1 =
      set_rng (manual_update (set_rng s r') t4 t1 dp1 el).1 r ∧
    (manual_update (set_rng s r) t4 t1 dp1 el).2 =
      (manual_update (set_rng s r') t4 t1 dp1 el).2 ∧
    (manual_update s t4 t1 dp1 el).1.rng = s.rng ∧
    (s.simulation_mode = true → s.user_input_mode = false →
      ((update_system s).1).rng = s.rng.drop 2) := by
  refine ⟨?_, ?_, rng_manual_update s t4 t1 dp1 el, ?_⟩
  · rw [manual_update_set_rng, manual_update_set_rng]
    rfl
  · rw [manual_update_set_rng, manual_update_set_rng]
  · intro hsim huser
    show (check_alarm_conditions _).rng = _
    simp only [show ∀ u : State, (check_alarm_conditions u).rng = u.rng from
        fun _ => rfl,
      rng_adjust_pump_count, rng_adjust_sw,
      show ∀ u : State, (adjust_fw_pump_frequency u).rng = u.rng from
        fun _ => rfl,
      show ∀ u : State, (update_heat_exchanger_efficiency u).rng = u.rng from
        fun _ => rfl,
      show ∀ u : State, (update_flow_rates u).rng = u.rng from fun _ => rfl,
      rng_refine_iters]
    exact rng_update_system_pre s hsim huser

/-- Witness for C10: two manual updates from the constructor defaults
with different random streams agree on state and outputs, and the
simulation-mode tick consumes two draws. -/
theorem manual_update_no_random_witness :
    (manual_update (set_rng baseState [1, 2, 3]) 40 25 1 50).2 =
      (manual_update (set_rng baseState [7, 8, 9]) 40 25 1 50).2 ∧
    baseState.simulation_mode = true ∧ baseState.user_input_mode = false ∧
    ((update_system baseState).1).rng = baseState.rng.drop 2 := by
  refine ⟨(manual_update_no_random baseState 40 25 1 50 [1, 2, 3] [7, 8, 9]).2.1, rfl, rfl, ?_⟩
  exact (manual_update_no_random baseState 40 25 1 50 [] []).2.2.2 rfl rfl

end ESSAI
